import Mathlib

/-!
Verification of `scripts/tabpfn-poc.py`, a single-file feasibility probe that
loads (or synthesizes) tabular energy-log data, engineers lag / rolling /
cyclic-date features per entity, and evaluates a classifier.

The pandas/numpy pipeline is shallowly embedded: frames are lists of typed
rows, floats are rationals, nullable cells are `Option ℚ`, and the impure
environment (trigonometric values of the cyclic encoding, the seeded numpy
random streams, the sklearn split/cross-validation routines and the external
TabPFN model) is abstracted into an `Env` record of pure functions, since the
claims under scrutiny depend only on the structure of the computation, never
on the numeric value of a sine or of a random draw.
-/

namespace TabpfnPoc

/-- Global numpy RNG state: (current seed, number of sampling calls made since
seeding).  `np.random.seed` replaces it wholesale. -/
abbrev GState := ℕ × ℕ

/-- Abstraction of the impure numeric environment.
`sinv`/`cosv` give the value of sin/cos of `2·π·dow/7` at a day-of-week;
`normal01 seed call i` is the `i`-th standard-normal draw of the `call`-th
sampling call after seeding with `seed`; `unif01` likewise for uniform(0,1);
`tabpfnPredict` is the external pretrained model (train X, train y, test X ↦
predictions); `mockPick state i` is the numpy random index stream backing
`np.random.choice` in the mock classifier; `splitMask y i` says whether sample
`i` lands in the test side of `train_test_split(test_size=0.2,
random_state=42, stratify=y)`; `cvScores real X y` are the 5-fold
`cross_val_score` accuracies (depending on which classifier is passed);
`stdDev` is the numpy standard deviation of a score list. -/
structure Env where
  sinv : ℕ → ℚ
  cosv : ℕ → ℚ
  normal01 : ℕ → ℕ → ℕ → ℚ
  unif01 : ℕ → ℕ → ℕ → ℚ
  tabpfnPredict : List (List (Option ℚ)) → List ℤ → List (List (Option ℚ)) → List ℤ
  mockPick : GState → ℕ → ℕ
  splitMask : List ℤ → ℕ → Bool
  cvScores : Bool → List (List (Option ℚ)) → List ℤ → List ℚ
  stdDev : List ℚ → ℚ

/-- `np.round` to the nearest integer, rounding halves to even (numpy's
banker's rounding). -/
def npRound (x : ℚ) : ℤ :=
  if x - Int.floor x = 1/2 then
    (if 2 ∣ Int.floor x then Int.floor x else Int.floor x + 1)
  else round x

/-- numpy `clip` on rationals. -/
def clipQ (lo hi x : ℚ) : ℚ := min hi (max lo x)

/-- numpy `clip` on integers. -/
def clipInt (lo hi : ℤ) (z : ℤ) : ℤ := min hi (max lo z)

/-- `np.round(x, 1)`: round to one decimal place. -/
def round1 (x : ℚ) : ℚ := (npRound (10 * x) : ℚ) / 10

/-- Mean of a list of rationals (0 on the empty list, matching the guarded
uses below). -/
def listMean (l : List ℚ) : ℚ := l.sum / l.length

/-- A raw row of the `energy_logs` table, as selected by `load_energy_data`'s
query.  `log_date` is a day number counted from a Monday epoch (so day-of-week
is `log_date % 7`; 2024-01-01, the synthetic start date, is a Monday).
All numeric cells are nullable in the store; the query itself filters
`energy_level IS NOT NULL`. -/
structure LogRow where
  user_id : String
  log_date : ℕ
  energy_level : Option ℚ
  mood_score : Option ℚ
  stress_level : Option ℚ
  hours_slept : Option ℚ
  notes : Option String
deriving DecidableEq, Repr

/-- The subsequence of the frame belonging to one entity, in frame order:
the entity's chronological record sequence once the frame is sorted by
(user_id, log_date).  This is the group that `df.groupby("user_id")`
forms for `u`. -/
def userSeq (rows : List LogRow) (u : String) : List LogRow :=
  rows.filter (fun r => r.user_id == u)

/-- Position of frame row `j` inside its entity's group: the number of
earlier frame rows with user id `u`.  `groupby(...).shift(d)` at frame row
`j` reads the group element at position `prevCount rows j u - d`. -/
def prevCount (rows : List LogRow) (j : ℕ) (u : String) : ℕ :=
  ((rows.take j).filter (fun r => r.user_id == u)).length

/-- Pandas `Series.shift(d)` read at in-group position `k` of a (possibly
null-valued) column: the value `d` places earlier, or null when there is no
such position. -/
def lagVal (col : List (Option ℚ)) (k d : ℕ) : Option ℚ :=
  if d ≤ k then (col[k - d]?).getD none else none

/-- Pandas `Series.rolling(7, min_periods=1).mean()` read at in-group
position `k`: the mean of the non-null values among the trailing window of
(up to) 7 values ending at `k`, or null when no value in the window is
defined. -/
def rollMean (col : List (Option ℚ)) (k : ℕ) : Option ℚ :=
  let w := ((col.take (k + 1)).drop (k + 1 - 7)).reduceOption
  if w.length = 0 then none else some (w.sum / w.length)

/-- An engineered record: the raw row plus lag-1/lag-7 features for the four
tracked numeric fields, 7-window trailing rolling means for three of them,
and the cyclic day-of-week encoding. -/
structure EngRow where
  base : LogRow
  energy_level_lag1 : Option ℚ
  energy_level_lag7 : Option ℚ
  mood_score_lag1 : Option ℚ
  mood_score_lag7 : Option ℚ
  stress_level_lag1 : Option ℚ
  stress_level_lag7 : Option ℚ
  hours_slept_lag1 : Option ℚ
  hours_slept_lag7 : Option ℚ
  energy_level_rolling7 : Option ℚ
  mood_score_rolling7 : Option ℚ
  stress_level_rolling7 : Option ℚ
  day_of_week : ℕ
  day_sin : ℚ
  day_cos : ℚ
deriving DecidableEq, Repr

/-- The feature engineering of `load_energy_data` applied to frame row `j`
holding raw row `r`: each lag/rolling feature is computed within `r`'s
entity group (pandas `groupby("user_id")` semantics), and day-of-week is
derived from the date. -/
def engineerRow (env : Env) (rows : List LogRow) (j : ℕ) (r : LogRow) : EngRow :=
  let s := userSeq rows r.user_id
  let k := prevCount rows j r.user_id
  let dow := r.log_date % 7
  { base := r
    energy_level_lag1 := lagVal (s.map (fun x => x.energy_level)) k 1
    energy_level_lag7 := lagVal (s.map (fun x => x.energy_level)) k 7
    mood_score_lag1 := lagVal (s.map (fun x => x.mood_score)) k 1
    mood_score_lag7 := lagVal (s.map (fun x => x.mood_score)) k 7
    stress_level_lag1 := lagVal (s.map (fun x => x.stress_level)) k 1
    stress_level_lag7 := lagVal (s.map (fun x => x.stress_level)) k 7
    hours_slept_lag1 := lagVal (s.map (fun x => x.hours_slept)) k 1
    hours_slept_lag7 := lagVal (s.map (fun x => x.hours_slept)) k 7
    energy_level_rolling7 := rollMean (s.map (fun x => x.energy_level)) k
    mood_score_rolling7 := rollMean (s.map (fun x => x.mood_score)) k
    stress_level_rolling7 := rollMean (s.map (fun x => x.stress_level)) k
    day_of_week := dow
    day_sin := env.sinv dow
    day_cos := env.cosv dow }

/-- Pair each element with its index, starting at `i`. -/
def enumFrom (i : ℕ) : List α → List (ℕ × α)
  | [] => []
  | a :: as => (i, a) :: enumFrom (i + 1) as

/-- Pair each element with its index. -/
def enumIdx (l : List α) : List (ℕ × α) := enumFrom 0 l

/-- The full feature-engineering pass of `load_energy_data` over a frame. -/
def engineerFrame (env : Env) (rows : List LogRow) : List EngRow :=
  (enumIdx rows).map (fun p => engineerRow env rows p.1 p.2)

/-- The keep-predicate of `df.dropna()`: a row survives iff every cell of
every column is non-null.  (`log_date`, `day_of_week`, `day_sin`, `day_cos`
are never null, and `energy_level` is non-null after the query filter, but
it is nullable in the raw row type so it is checked too.) -/
def EngRow.noNull (e : EngRow) : Bool :=
  e.base.energy_level.isSome && e.base.mood_score.isSome &&
  e.base.stress_level.isSome && e.base.hours_slept.isSome &&
  e.base.notes.isSome &&
  e.energy_level_lag1.isSome && e.energy_level_lag7.isSome &&
  e.mood_score_lag1.isSome && e.mood_score_lag7.isSome &&
  e.stress_level_lag1.isSome && e.stress_level_lag7.isSome &&
  e.hours_slept_lag1.isSome && e.hours_slept_lag7.isSome &&
  e.energy_level_rolling7.isSome && e.mood_score_rolling7.isSome &&
  e.stress_level_rolling7.isSome

/-- Lexicographic character-wise strict order on character lists. -/
def strLtAux : List Char → List Char → Bool
  | [], [] => false
  | [], _ :: _ => true
  | _ :: _, [] => false
  | a :: as, b :: bs =>
    if a.toNat < b.toNat then true
    else if a.toNat = b.toNat then strLtAux as bs else false

/-- Lexicographic strict order on strings. -/
def strLt (a b : String) : Bool := strLtAux a.data b.data

/-- Lexicographic (user_id, log_date) order used by the query's
`ORDER BY user_id, log_date` and by `df.sort_values`. -/
def rowLe (a b : LogRow) : Bool :=
  strLt a.user_id b.user_id || (a.user_id == b.user_id && a.log_date ≤ b.log_date)

/-- Ordered insertion for `sort_values`. -/
def insertRow (a : LogRow) : List LogRow → List LogRow
  | [] => [a]
  | b :: bs => if rowLe a b then a :: b :: bs else b :: insertRow a bs

/-- `df.sort_values(["user_id", "log_date"])`. -/
def sort_values : List LogRow → List LogRow
  | [] => []
  | a :: as => insertRow a (sort_values as)

/-- A row of the auxiliary `academic_events` table. -/
structure EventRow where
  user_id : String
  event_date : ℕ
  event_type : String
  stress_multiplier : ℚ
deriving DecidableEq, Repr

/-- The DuckDB store: its table names and the two tables the script knows
about. -/
structure DB where
  tables : List String
  energy_logs : List LogRow
  academic_events : List EventRow

/-- The SQL statements a pipeline run can issue against the store. -/
inductive Query
  | showTables
  | selectEnergyLogs
  | selectAcademicEvents
deriving DecidableEq, Repr

/-- `load_energy_data`: check the table list, select the non-null-energy
rows ordered by (user, date), engineer lag/rolling/cyclic features grouped
by user, and drop every row that has a null in any column.  Also returns
the queries issued against the store. -/
def load_energy_data (env : Env) (db : DB) : List EngRow × List Query :=
  if "energy_logs" ∈ db.tables then
    let raw := sort_values (db.energy_logs.filter (fun r => r.energy_level.isSome))
    ((engineerFrame env raw).filter EngRow.noNull, [Query.showTables, Query.selectEnergyLogs])
  else ([], [Query.showTables])

/-- `load_academic_events`: events of the trailing 30 days (dates are day
numbers; `today` is the current date).  Defined by the script but, as proved
below, never invoked by the pipeline. -/
def load_academic_events (db : DB) (today : ℕ) : List EventRow × List Query :=
  if "academic_events" ∈ db.tables then
    (db.academic_events.filter (fun e => today - 30 ≤ e.event_date), [Query.showTables, Query.selectAcademicEvents])
  else ([], [Query.showTables])

/-- The raw synthetic frame of `generate_synthetic_data`, before feature
engineering: one row per day `i` from 2024-01-01 (a Monday), single entity
"synthetic_user", with sleep/stress/mood drawn from the seed-42 streams,
energy a rounded and clamped linear combination of sleep deviation, stress
deviation, weekend bonus and noise, and the `notes` column null in every
row. -/
def synthRaw (env : Env) (n : ℕ) : List LogRow :=
  (List.range n).map (fun i =>
    let dow := i % 7
    let hours_slept := clipQ 4 10 (7 + 3/2 * env.normal01 42 0 i)
    let stress_level := 1 + 4 * env.unif01 42 1 i
    let mood_score := clipQ 1 5 (7/2 + env.normal01 42 2 i)
    let weekend_bonus : ℚ := if 5 ≤ dow then 1/2 else 0
    let sleep_effect := (hours_slept - 7) * (3/10)
    let stress_effect := -((stress_level - 3) * (1/5))
    let energy := 3 + sleep_effect + stress_effect + weekend_bonus + env.normal01 42 3 i
    { user_id := "synthetic_user"
      log_date := i
      energy_level := some ((clipInt 1 5 (npRound energy) : ℤ) : ℚ)
      mood_score := some ((npRound mood_score : ℤ) : ℚ)
      stress_level := some ((npRound stress_level : ℤ) : ℚ)
      hours_slept := some (round1 hours_slept)
      notes := none })

/-- The engineered synthetic frame before the final `dropna`: plain
whole-column `shift` and `rolling` (the synthetic frame has a single entity,
so no groupby is used in the source), plus the cyclic day encoding.  The
synthetic frame carries no `day_of_week` column; the field is still filled
for uniformity of the row type but is absent from `synthColNames`. -/
def synthPreDrop (env : Env) (n : ℕ) : List EngRow :=
  let rows := synthRaw env n
  (enumIdx rows).map (fun p =>
    let i := p.1
    let r := p.2
    let dow := i % 7
    { base := r
      energy_level_lag1 := lagVal (rows.map (fun x => x.energy_level)) i 1
      energy_level_lag7 := lagVal (rows.map (fun x => x.energy_level)) i 7
      mood_score_lag1 := lagVal (rows.map (fun x => x.mood_score)) i 1
      mood_score_lag7 := lagVal (rows.map (fun x => x.mood_score)) i 7
      stress_level_lag1 := lagVal (rows.map (fun x => x.stress_level)) i 1
      stress_level_lag7 := lagVal (rows.map (fun x => x.stress_level)) i 7
      hours_slept_lag1 := lagVal (rows.map (fun x => x.hours_slept)) i 1
      hours_slept_lag7 := lagVal (rows.map (fun x => x.hours_slept)) i 7
      energy_level_rolling7 := rollMean (rows.map (fun x => x.energy_level)) i
      mood_score_rolling7 := rollMean (rows.map (fun x => x.mood_score)) i
      stress_level_rolling7 := rollMean (rows.map (fun x => x.stress_level)) i
      day_of_week := dow
      day_sin := env.sinv dow
      day_cos := env.cosv dow })

/-- `generate_synthetic_data(n_samples)`: reseed the global RNG with the
constant 42 (discarding the incoming state `g`), build the synthetic frame,
engineer features, and apply the final `dropna`.  Returns the frame together
with the RNG state after the four sampling calls. -/
def generate_synthetic_data (env : Env) (n : ℕ) (_g : GState) : List EngRow × GState :=
  ((synthPreDrop env n).filter EngRow.noNull, (42, 4))

/-- Column names of the engineered real-data frame (`load_energy_data`
output). -/
def engColNames : List String :=
  ["user_id", "log_date", "energy_level", "mood_score", "stress_level",
   "hours_slept", "notes",
   "energy_level_lag1", "energy_level_lag7", "mood_score_lag1",
   "mood_score_lag7", "stress_level_lag1", "stress_level_lag7",
   "hours_slept_lag1", "hours_slept_lag7",
   "energy_level_rolling7", "mood_score_rolling7", "stress_level_rolling7",
   "day_of_week", "day_sin", "day_cos"]

/-- Column names of the engineered synthetic frame: same as the real frame
except that `generate_synthetic_data` never creates a `day_of_week`
column. -/
def synthColNames : List String :=
  ["user_id", "log_date", "energy_level", "mood_score", "stress_level",
   "hours_slept", "notes",
   "energy_level_lag1", "energy_level_lag7", "mood_score_lag1",
   "mood_score_lag7", "stress_level_lag1", "stress_level_lag7",
   "hours_slept_lag1", "hours_slept_lag7",
   "energy_level_rolling7", "mood_score_rolling7", "stress_level_rolling7",
   "day_sin", "day_cos"]

/-- The fixed ordered candidate feature list of `prepare_features`. -/
def feature_cols : List String :=
  ["mood_score", "stress_level", "hours_slept",
   "energy_level_lag1", "energy_level_lag7",
   "mood_score_lag1", "stress_level_lag1",
   "energy_level_rolling7", "mood_score_rolling7", "stress_level_rolling7",
   "day_sin", "day_cos"]

/-- Numeric view of an engineered row's columns, by column name.  The
free-text `notes` column carries no numeric value and is represented only in
the schema lists (it is never read by name in `prepare_features`). -/
def EngRow.col (e : EngRow) : String → Option ℚ
  | "log_date" => some (e.base.log_date : ℚ)
  | "energy_level" => e.base.energy_level
  | "mood_score" => e.base.mood_score
  | "stress_level" => e.base.stress_level
  | "hours_slept" => e.base.hours_slept
  | "energy_level_lag1" => e.energy_level_lag1
  | "energy_level_lag7" => e.energy_level_lag7
  | "mood_score_lag1" => e.mood_score_lag1
  | "mood_score_lag7" => e.mood_score_lag7
  | "stress_level_lag1" => e.stress_level_lag1
  | "stress_level_lag7" => e.stress_level_lag7
  | "hours_slept_lag1" => e.hours_slept_lag1
  | "hours_slept_lag7" => e.hours_slept_lag7
  | "energy_level_rolling7" => e.energy_level_rolling7
  | "mood_score_rolling7" => e.mood_score_rolling7
  | "stress_level_rolling7" => e.stress_level_rolling7
  | "day_of_week" => some (e.day_of_week : ℚ)
  | "day_sin" => some e.day_sin
  | "day_cos" => some e.day_cos
  | _ => none

/-- A pandas frame: its schema (column-name list) and its typed rows.  The
schema list governs column presence, modelling schema drift. -/
structure Frame where
  cols : List String
  rows : List EngRow

/-- `MIN_SAMPLES`. -/
def MIN_SAMPLES : ℕ := 20

/-- `prepare_features`: intersect the fixed candidate list with the columns
present (preserving the candidate order); if fewer than 3 survive, return
empty feature and target arrays (after a diagnostic print); otherwise X is
the row-major matrix of the selected columns and y is the energy level
rounded to integers. -/
def prepare_features (df : Frame) : List (List (Option ℚ)) × List ℤ :=
  let available_cols := feature_cols.filter (fun c => c ∈ df.cols)
  if available_cols.length < 3 then
    (([] : List (List (Option ℚ))), ([] : List ℤ))
  else
    (df.rows.map (fun r => available_cols.map (fun c => EngRow.col r c)),
     df.rows.map (fun r => npRound ((EngRow.col r "energy_level").getD 0)))

/-- Sorted deduplicating insertion, for `np.unique`. -/
def insertSortedDedup (a : ℤ) : List ℤ → List ℤ
  | [] => [a]
  | b :: bs =>
    if a < b then a :: b :: bs
    else if a = b then b :: bs
    else b :: insertSortedDedup a bs

/-- `np.unique`: the sorted list of distinct values. -/
def npUnique (xs : List ℤ) : List ℤ := xs.foldr insertSortedDedup []

/-- The mock classifier: `fit` only remembers the observed class set. -/
structure MockTabPFNClassifier where
  classes_ : List ℤ
deriving DecidableEq, Repr

/-- `MockTabPFNClassifier.fit`. -/
def MockTabPFNClassifier.fit (y : List ℤ) : MockTabPFNClassifier :=
  ⟨npUnique y⟩

/-- `MockTabPFNClassifier.predict`: one uniformly random pick from the
remembered classes per test row, via the abstract numpy index stream. -/
def MockTabPFNClassifier.predict (env : Env) (g : GState)
    (c : MockTabPFNClassifier) (X : List (List (Option ℚ))) : List ℤ :=
  (enumIdx X).map (fun p => c.classes_.getD (env.mockPick g p.1 % c.classes_.length) 0)

/-- `sklearn.metrics.accuracy_score`: fraction of positions where prediction
equals truth. -/
def accuracy_score (y_true y_pred : List ℤ) : ℚ :=
  if y_true.length = 0 then 0
  else (((y_true.zip y_pred).filter (fun p => p.1 == p.2)).length : ℚ) / y_true.length

/-- The observable steps of `evaluate_tabpfn`, in order. -/
inductive EvalStep
  | useReal
  | useMock
  | splitStep
  | fitStep
  | predictStep
  | accStep
  | cvStep
deriving DecidableEq, Repr

/-- The success payload of `evaluate_tabpfn`'s results dict. -/
structure EvalOk where
  samples : ℕ
  features : ℕ
  classes : List ℤ
  accuracy : ℚ
  cv_mean : ℚ
  cv_std : ℚ
deriving DecidableEq, Repr

/-- The result of `evaluate_tabpfn`: either the structured error dict
(`{"error": msg, "samples": n}`) or the full results dict. -/
inductive EvalResult
  | insufficient (msg : String) (samples : ℕ)
  | ok (r : EvalOk)
deriving DecidableEq, Repr

/-- `evaluate_tabpfn`: below `MIN_SAMPLES`, return the structured error
without constructing or fitting any classifier; otherwise pick the real or
mock classifier, perform the stratified 80/20 split (abstracted as
`env.splitMask`), fit, predict, compute holdout accuracy and the 5-fold
cross-validation statistics.  The second component is the trace of steps
actually performed. -/
def evaluate_tabpfn (env : Env) (tabpfnAvailable : Bool)
    (X : List (List (Option ℚ))) (y : List ℤ) (g : GState) :
    EvalResult × List EvalStep :=
  if X.length < MIN_SAMPLES then
    (EvalResult.insufficient
      ("Insufficient samples (" ++ toString X.length ++ " < " ++ toString MIN_SAMPLES ++ ")")
      X.length, [])
  else
    let clfStep := if tabpfnAvailable then EvalStep.useReal else EvalStep.useMock
    let pairs := (enumIdx (X.zip y))
    let trainPairs := (pairs.filter (fun p => !(env.splitMask y p.1))).map (fun p => p.2)
    let testPairs := (pairs.filter (fun p => env.splitMask y p.1)).map (fun p => p.2)
    let X_train := trainPairs.map (fun p => p.1)
    let y_train := trainPairs.map (fun p => p.2)
    let X_test := testPairs.map (fun p => p.1)
    let y_test := testPairs.map (fun p => p.2)
    let y_pred :=
      if tabpfnAvailable then env.tabpfnPredict X_train y_train X_test
      else (MockTabPFNClassifier.fit y_train).predict env g X_test
    let accuracy := accuracy_score y_test y_pred
    let cv := env.cvScores tabpfnAvailable X y
    (EvalResult.ok
      { samples := X.length
        features := (X.headD []).length
        classes := npUnique y
        accuracy := accuracy
        cv_mean := listMean cv
        cv_std := env.stdDev cv },
     [clfStep, EvalStep.splitStep, EvalStep.fitStep, EvalStep.predictStep,
      EvalStep.accStep, EvalStep.cvStep])

/-- The three-tier verdict printed by `main` from the cross-validation mean
accuracy. -/
def verdictOf (cv_mean : ℚ) : String :=
  if cv_mean > 3/5 then "PROMISING - TabPFN shows predictive power"
  else if cv_mean > 2/5 then "MARGINAL - Some signal, needs more data/features"
  else "WEAK - Consider alternative approaches"

/-- Availability of the three imported packages. -/
structure Deps where
  duckdbAvailable : Bool
  sklearnAvailable : Bool
  tabpfnAvailable : Bool

/-- Observable outcome of one process run: the exit code, the verdict (when
one is printed), the store queries issued, the number of startup warnings
about the missing optional tabpfn dependency, and the evaluator's step
trace. -/
structure RunResult where
  exitCode : ℕ
  verdict : Option String
  queries : List Query
  tabpfnWarnings : ℕ
  evalTrace : List EvalStep
deriving DecidableEq, Repr

/-- The data-source resolution of `main`: use the store when it exists and
its engineered frame is non-empty with at least `MIN_SAMPLES` rows, else fall
back to 200 synthetic samples.  Returns the engineered frame, its schema, the
store queries issued, and the RNG state after resolution. -/
def resolveData (env : Env) (store : Option DB) (g : GState) :
    List EngRow × List String × List Query × GState :=
  match store with
  | none =>
    let s := generate_synthetic_data env 200 g
    (s.1, synthColNames, [], s.2)
  | some db =>
    let l := load_energy_data env db
    if l.1.isEmpty || l.1.length < MIN_SAMPLES then
      let s := generate_synthetic_data env 200 g
      (s.1, synthColNames, l.2, s.2)
    else (l.1, engColNames, l.2, g)

/-- The body of `main` (after the import checks): resolve the data source,
select features, exit 1 on an empty feature matrix, evaluate, exit 1 on the
structured error, otherwise print the verdict and exit 0. -/
def runPipeline (env : Env) (deps : Deps) (store : Option DB) (g : GState) :
    RunResult :=
  let warn := if deps.tabpfnAvailable then 0 else 1
  let loaded := resolveData env store g
  let xy := prepare_features ⟨loaded.2.1, loaded.1⟩
  if xy.1.length = 0 then
    { exitCode := 1, verdict := none, queries := loaded.2.2.1,
      tabpfnWarnings := warn, evalTrace := [] }
  else
    let ev := evaluate_tabpfn env deps.tabpfnAvailable xy.1 xy.2 loaded.2.2.2
    match ev.1 with
    | EvalResult.insufficient _ _ =>
      { exitCode := 1, verdict := none, queries := loaded.2.2.1,
        tabpfnWarnings := warn, evalTrace := ev.2 }
    | EvalResult.ok r =>
      { exitCode := 0, verdict := some (verdictOf r.cv_mean),
        queries := loaded.2.2.1, tabpfnWarnings := warn, evalTrace := ev.2 }

/-- The whole process: the two hard import checks exit with status 1 before
`main`; a missing tabpfn prints one startup warning, downgrades to the mock
classifier and continues. -/
def runProgram (env : Env) (deps : Deps) (store : Option DB) (g : GState) :
    RunResult :=
  if !deps.duckdbAvailable then
    { exitCode := 1, verdict := none, queries := [], tabpfnWarnings := 0, evalTrace := [] }
  else if !deps.sklearnAvailable then
    { exitCode := 1, verdict := none, queries := [], tabpfnWarnings := 0, evalTrace := [] }
  else runPipeline env deps store g

/-! Concrete instances used to evaluate the development on closed inputs. -/

/-- A concrete environment in which every abstracted numeric stream is
constantly zero. -/
def env0 : Env :=
  { sinv := fun _ => 0
    cosv := fun _ => 0
    normal01 := fun _ _ _ => 0
    unif01 := fun _ _ _ => 0
    tabpfnPredict := fun _ _ Xte => Xte.map (fun _ => 0)
    mockPick := fun _ _ => 0
    splitMask := fun _ _ => false
    cvScores := fun _ _ _ => []
    stdDev := fun _ => 0 }

/-- All three packages installed. -/
def depsAll : Deps := ⟨true, true, true⟩

/-- Only the optional tabpfn dependency missing. -/
def depsNoTabpfn : Deps := ⟨true, true, false⟩

/-- A concrete store with 27 fully populated rows for one user, enough for
20 engineered rows to survive the lag-feature drop. -/
def db27 : DB :=
  { tables := ["energy_logs"]
    energy_logs := (List.range 27).map (fun i =>
      { user_id := "u", log_date := i, energy_level := some 3,
        mood_score := some 3, stress_level := some 3, hours_slept := some 7,
        notes := some "" })
    academic_events := [] }

/-- A concrete feature matrix with exactly 19 rows. -/
def X19 : List (List (Option ℚ)) := (List.range 19).map (fun _ => [some 1])

/-- Targets for `X19`. -/
def y19 : List ℤ := (List.range 19).map (fun i => (i % 2 : ℤ))

/-- A concrete feature matrix with exactly 20 rows. -/
def X20 : List (List (Option ℚ)) := (List.range 20).map (fun _ => [some 1])

/-- Targets for `X20`. -/
def y20 : List ℤ := (List.range 20).map (fun i => (i % 2 : ℤ))

/-- An 8-row single-entity frame for evaluating lag features concretely. -/
def rows8 : List LogRow :=
  (List.range 8).map (fun i =>
    { user_id := "u", log_date := i, energy_level := some (i + 1 : ℕ),
      mood_score := some (2 * i + 1 : ℕ), stress_level := some 2,
      hours_slept := some 7, notes := some "" })

/-- The last row of `rows8`. -/
def row8last : LogRow :=
  { user_id := "u", log_date := 7, energy_level := some 8,
    mood_score := some 15, stress_level := some 2,
    hours_slept := some 7, notes := some "" }

/-- A 3-row single-entity frame for evaluating the short-window rolling mean
concretely. -/
def rows3 : List LogRow :=
  [{ user_id := "u", log_date := 0, energy_level := some 3, mood_score := some 1,
     stress_level := some 2, hours_slept := some 7, notes := some "" },
   { user_id := "u", log_date := 1, energy_level := some 4, mood_score := some 2,
     stress_level := some 2, hours_slept := some 7, notes := some "" },
   { user_id := "u", log_date := 2, energy_level := some 5, mood_score := some 3,
     stress_level := some 2, hours_slept := some 7, notes := some "" }]

/-- The last row of `rows3`. -/
def row3last : LogRow :=
  { user_id := "u", log_date := 2, energy_level := some 5, mood_score := some 3,
    stress_level := some 2, hours_slept := some 7, notes := some "" }

/-- A store that contains a populated `academic_events` table next to the
energy logs. -/
def dbWithEvents : DB :=
  { tables := ["energy_logs", "academic_events"]
    energy_logs := db27.energy_logs
    academic_events := [⟨"u", 10, "exam", 3/2⟩] }

/-- A frame whose schema has drifted down to two candidate columns. -/
def driftedFrame : Frame := { cols := ["mood_score", "day_sin"], rows := [] }

/-- A raw row with every numeric cell defined but a null notes cell. -/
def logRow0 : LogRow :=
  { user_id := "u", log_date := 0, energy_level := some 3,
    mood_score := some 3, stress_level := some 3, hours_slept := some 7,
    notes := none }

/-- An engineered row whose lag and rolling features are all defined but
whose notes cell is null. -/
def engRow0 : EngRow :=
  { base := logRow0,
    energy_level_lag1 := some 3, energy_level_lag7 := some 3,
    mood_score_lag1 := some 3, mood_score_lag7 := some 3,
    stress_level_lag1 := some 3, stress_level_lag7 := some 3,
    hours_slept_lag1 := some 7, hours_slept_lag7 := some 7,
    energy_level_rolling7 := some 3, mood_score_rolling7 := some 3,
    stress_level_rolling7 := some 3, day_of_week := 0, day_sin := 0,
    day_cos := 0 }

/-! ### Supporting lemmas -/

lemma enumFrom_length (l : List α) : ∀ i, (enumFrom i l).length = l.length := by
  induction l with
  | nil => intro i; rfl
  | cons a as ih => intro i; simp [enumFrom, ih]

lemma enumFrom_getElem? (l : List α) :
    ∀ i j, (enumFrom i l)[j]? = (l[j]?).map (fun a => (i + j, a)) := by
  induction l with
  | nil => intro i j; simp [enumFrom]
  | cons a as ih =>
    intro i j
    cases j with
    | zero => simp [enumFrom]
    | succ j =>
      have : i + (j + 1) = (i + 1) + j := by omega
      simp [enumFrom, ih (i + 1) j, this]

lemma mem_enumFrom {α : Type} {p : ℕ × α} :
    ∀ (l : List α) (i : ℕ), p ∈ enumFrom i l → p.2 ∈ l := by
  intro l
  induction l with
  | nil => intro i h; simp [enumFrom] at h
  | cons a as ih =>
    intro i h
    simp only [enumFrom, List.mem_cons] at h
    rcases h with h | h
    · subst h; simp
    · exact List.mem_cons_of_mem _ (ih (i + 1) h)

lemma reduceOption_map_some (vs : List ℚ) : (vs.map some).reduceOption = vs := by
  induction vs with
  | nil => rfl
  | cons v vs ih => simp [List.reduceOption_cons_of_some, ih]

lemma synthRaw_length (env : Env) (n : ℕ) : (synthRaw env n).length = n := by
  simp [synthRaw]

lemma synthRaw_notes (env : Env) (n : ℕ) :
    ∀ r ∈ synthRaw env n, r.notes = none := by
  intro r hr
  simp only [synthRaw, List.mem_map] at hr
  obtain ⟨i, _, rfl⟩ := hr
  rfl

lemma synthPreDrop_length (env : Env) (n : ℕ) :
    (synthPreDrop env n).length = n := by
  simp [synthPreDrop, enumIdx, enumFrom_length, synthRaw_length]

lemma synthPreDrop_notes (env : Env) (n : ℕ) :
    ∀ e ∈ synthPreDrop env n, e.base.notes = none := by
  intro e he
  simp only [synthPreDrop, List.mem_map] at he
  obtain ⟨p, hp, rfl⟩ := he
  exact synthRaw_notes env n p.2 (mem_enumFrom _ 0 hp)

lemma noNull_of_notes_none (e : EngRow) (h : e.base.notes = none) :
    e.noNull = false := by
  simp [EngRow.noNull, h]

lemma generate_empty (env : Env) (n : ℕ) (g : GState) :
    (generate_synthetic_data env n g).1 = [] := by
  simp only [generate_synthetic_data]
  rw [List.filter_eq_nil_iff]
  intro e he
  simp [noNull_of_notes_none e (synthPreDrop_notes env n e he)]

lemma engineerFrame_getElem? (env : Env) (rows : List LogRow) (j : ℕ)
    (r : LogRow) (h : rows[j]? = some r) :
    (engineerFrame env rows)[j]? = some (engineerRow env rows j r) := by
  simp [engineerFrame, enumIdx, enumFrom_getElem?, h]

lemma userSeq_getElem?_prevCount :
    ∀ (rows : List LogRow) (j : ℕ) (r : LogRow), rows[j]? = some r →
      (userSeq rows r.user_id)[prevCount rows j r.user_id]? = some r := by
  intro rows
  induction rows with
  | nil => intro j r h; simp at h
  | cons a as ih =>
    intro j r h
    cases j with
    | zero =>
      simp only [List.getElem?_cons_zero, Option.some.injEq] at h
      subst h
      simp [userSeq, prevCount, List.filter_cons]
    | succ j =>
      have h' : as[j]? = some r := by simpa using h
      by_cases hu : a.user_id == r.user_id
      · have hcount : prevCount (a :: as) (j + 1) r.user_id
            = prevCount as j r.user_id + 1 := by
          simp [prevCount, List.take_succ_cons, List.filter_cons, hu]
        have hseq : userSeq (a :: as) r.user_id = a :: userSeq as r.user_id := by
          simp [userSeq, List.filter_cons, hu]
        rw [hcount, hseq, List.getElem?_cons_succ]
        exact ih j r h'
      · have hcount : prevCount (a :: as) (j + 1) r.user_id
            = prevCount as j r.user_id := by
          simp [prevCount, List.take_succ_cons, List.filter_cons, hu]
        have hseq : userSeq (a :: as) r.user_id = userSeq as r.user_id := by
          simp [userSeq, List.filter_cons, hu]
        rw [hcount, hseq]
        exact ih j r h'

lemma prevCount_lt (rows : List LogRow) (j : ℕ) (r : LogRow)
    (h : rows[j]? = some r) :
    prevCount rows j r.user_id < (userSeq rows r.user_id).length :=
  (List.getElem?_eq_some.mp (userSeq_getElem?_prevCount rows j r h)).1

lemma userSeq_mem_uid (rows : List LogRow) (u : String) :
    ∀ x ∈ userSeq rows u, x.user_id == u := by
  intro x hx
  exact (List.mem_filter.mp hx).2

lemma userSeq_idem (rows : List LogRow) (u : String) :
    userSeq (userSeq rows u) u = userSeq rows u :=
  List.filter_eq_self.mpr (userSeq_mem_uid rows u)

lemma prevCount_userSeq (rows : List LogRow) (u : String) (k : ℕ)
    (hk : k ≤ (userSeq rows u).length) :
    prevCount (userSeq rows u) k u = k := by
  unfold prevCount
  rw [List.filter_eq_self.mpr, List.length_take]
  · omega
  · intro x hx
    exact userSeq_mem_uid rows u x (List.mem_of_mem_take hx)

lemma rollMean_take (col : List (Option ℚ)) (k : ℕ) (vs : List ℚ)
    (hk : k < 7) (hvs : col.take (k + 1) = vs.map some)
    (hlen : vs.length = k + 1) :
    rollMean col k = some (vs.sum / (k + 1)) := by
  unfold rollMean
  have h0 : k + 1 - 7 = 0 := by omega
  simp only [h0, List.drop_zero, hvs, reduceOption_map_some, hlen]
  rw [if_neg (by omega)]
  congr 1
  push_cast
  ring

lemma evaluate_insufficient (env : Env) (a : Bool) (X : List (List (Option ℚ)))
    (y : List ℤ) (g : GState) (h : X.length < MIN_SAMPLES) :
    evaluate_tabpfn env a X y g =
      (EvalResult.insufficient
        ("Insufficient samples (" ++ toString X.length ++ " < " ++ toString MIN_SAMPLES ++ ")")
        X.length, []) := by
  simp [evaluate_tabpfn, h]

lemma evaluate_ok (env : Env) (a : Bool) (X : List (List (Option ℚ)))
    (y : List ℤ) (g : GState) (h : ¬ X.length < MIN_SAMPLES) :
    ∃ r : EvalOk,
      (evaluate_tabpfn env a X y g).1 = EvalResult.ok r ∧
      r.samples = X.length ∧
      r.cv_mean = listMean (env.cvScores a X y) ∧
      (evaluate_tabpfn env a X y g).2 =
        [(if a then EvalStep.useReal else EvalStep.useMock), EvalStep.splitStep,
         EvalStep.fitStep, EvalStep.predictStep, EvalStep.accStep, EvalStep.cvStep] := by
  rw [evaluate_tabpfn, if_neg h]
  exact ⟨_, rfl, rfl, rfl, rfl⟩

lemma load_energy_data_queries (env : Env) (db : DB) :
    (load_energy_data env db).2 = [Query.showTables, Query.selectEnergyLogs] ∨
    (load_energy_data env db).2 = [Query.showTables] := by
  unfold load_energy_data
  split
  · left; rfl
  · right; rfl

lemma resolveData_no_events (env : Env) (store : Option DB) (g : GState) :
    Query.selectAcademicEvents ∉ (resolveData env store g).2.2.1 := by
  unfold resolveData
  cases store with
  | none => simp
  | some db =>
    dsimp only
    rcases load_energy_data_queries env db with h | h <;>
      split <;> simp [h]

lemma runPipeline_queries (env : Env) (deps : Deps) (store : Option DB)
    (g : GState) :
    (runPipeline env deps store g).queries = (resolveData env store g).2.2.1 := by
  unfold runPipeline
  dsimp only
  split
  · rfl
  · split <;> rfl

/-! ### Claim theorems -/

/-- Claim C7: the printed verdict is the three-tier function of the
cross-validation mean accuracy: the PROMISING verdict is chosen iff
cv_mean > 0.6, the MARGINAL verdict iff 0.4 < cv_mean ≤ 0.6, and the WEAK
verdict otherwise. -/
theorem C7_verdict_tiers (m : ℚ) :
    (verdictOf m = "PROMISING - TabPFN shows predictive power" ↔ 3/5 < m) ∧
    (verdictOf m = "MARGINAL - Some signal, needs more data/features" ↔
      2/5 < m ∧ m ≤ 3/5) ∧
    (verdictOf m = "WEAK - Consider alternative approaches" ↔ m ≤ 2/5) := by
  unfold verdictOf
  split_ifs with h1 h2
  · exact ⟨iff_of_true rfl h1,
      iff_of_false (by decide) (fun h => absurd h1 (not_lt.mpr h.2)),
      iff_of_false (by decide) (by intro h; linarith)⟩
  · exact ⟨iff_of_false (by decide) h1,
      iff_of_true rfl ⟨h2, le_of_not_lt h1⟩,
      iff_of_false (by decide) (by intro h; linarith)⟩
  · exact ⟨iff_of_false (by decide) h1,
      iff_of_false (by decide) (fun h => absurd h.1 h2),
      iff_of_true rfl (le_of_not_lt h2)⟩

/-- Witness for C7 at the concrete cross-validation mean 7/10. -/
theorem C7_verdict_tiers_witness :
    (verdictOf (7/10) = "PROMISING - TabPFN shows predictive power" ↔
      3/5 < (7/10 : ℚ)) ∧
    (verdictOf (7/10) = "MARGINAL - Some signal, needs more data/features" ↔
      2/5 < (7/10 : ℚ) ∧ (7/10 : ℚ) ≤ 3/5) ∧
    (verdictOf (7/10) = "WEAK - Consider alternative approaches" ↔
      (7/10 : ℚ) ≤ 2/5) :=
  C7_verdict_tiers (7/10)

/-- Claim C9: synthetic generation is deterministic.  The generator reseeds
the global RNG with the fixed constant 42, so its output frame is
independent of the incoming RNG state: any two invocations with the same
sample count, in particular two consecutive ones, produce identical
frames. -/
theorem C9_synthetic_deterministic (env : Env) (n : ℕ) (g g' : GState) :
    (generate_synthetic_data env n g).1 = (generate_synthetic_data env n g').1 ∧
    (generate_synthetic_data env n ((generate_synthetic_data env n g).2)).1 =
      (generate_synthetic_data env n g).1 :=
  ⟨rfl, rfl⟩

/-- Claim C4: with exactly 19 samples the evaluator returns the structured
error carrying samples = 19 and performs no step at all (in particular it
fits no classifier); with exactly 20 samples it proceeds through classifier
selection, split, fit, predict, accuracy and cross-validation. -/
theorem C4_evaluator_min_samples (env : Env) (avail : Bool)
    (X : List (List (Option ℚ))) (y : List ℤ) (g : GState) :
    (X.length = 19 →
      evaluate_tabpfn env avail X y g =
        (EvalResult.insufficient "Insufficient samples (19 < 20)" 19, []) ∧
      EvalStep.fitStep ∉ (evaluate_tabpfn env avail X y g).2) ∧
    (X.length = 20 →
      ∃ r : EvalOk,
        (evaluate_tabpfn env avail X y g).1 = EvalResult.ok r ∧
        r.samples = 20 ∧
        EvalStep.splitStep ∈ (evaluate_tabpfn env avail X y g).2 ∧
        EvalStep.fitStep ∈ (evaluate_tabpfn env avail X y g).2 ∧
        EvalStep.predictStep ∈ (evaluate_tabpfn env avail X y g).2 ∧
        EvalStep.accStep ∈ (evaluate_tabpfn env avail X y g).2) := by
  constructor
  · intro h
    have h19 : X.length < MIN_SAMPLES := by rw [h]; decide
    have := evaluate_insufficient env avail X y g h19
    rw [h] at this
    refine ⟨by rw [this]; rfl, by rw [this]; simp⟩
  · intro h
    have h20 : ¬ X.length < MIN_SAMPLES := by rw [h]; decide
    obtain ⟨r, hr, hs, _, htr⟩ := evaluate_ok env avail X y g h20
    exact ⟨r, hr, by rw [hs, h], by rw [htr]; simp, by rw [htr]; simp,
      by rw [htr]; simp, by rw [htr]; simp⟩

/-- Witness for C4 at concrete 19- and 20-row feature matrices. -/
theorem C4_evaluator_min_samples_witness :
    evaluate_tabpfn env0 false X19 y19 (0, 0) =
      (EvalResult.insufficient "Insufficient samples (19 < 20)" 19, []) ∧
    ∃ r : EvalOk,
      (evaluate_tabpfn env0 false X20 y20 (0, 0)).1 = EvalResult.ok r ∧
      r.samples = 20 ∧
      EvalStep.fitStep ∈ (evaluate_tabpfn env0 false X20 y20 (0, 0)).2 :=
  ⟨((C4_evaluator_min_samples env0 false X19 y19 (0, 0)).1 (by decide)).1,
   by
    obtain ⟨r, h1, h2, _, h3, _, _⟩ :=
      (C4_evaluator_min_samples env0 false X20 y20 (0, 0)).2 (by decide)
    exact ⟨r, h1, h2, h3⟩⟩

/-- Claim C6: the feature selector keeps, in their fixed order, exactly the
candidate feature columns present in the frame's schema, and when fewer than
3 survive it returns empty feature and target arrays instead of raising. -/
theorem C6_feature_selection_soft_fail (df : Frame) :
    (List.Sublist (feature_cols.filter (fun c => c ∈ df.cols)) feature_cols ∧
      ∀ c, c ∈ feature_cols.filter (fun c => c ∈ df.cols) ↔
        (c ∈ feature_cols ∧ c ∈ df.cols)) ∧
    ((feature_cols.filter (fun c => c ∈ df.cols)).length < 3 →
      prepare_features df = ([], [])) ∧
    (¬ (feature_cols.filter (fun c => c ∈ df.cols)).length < 3 →
      (prepare_features df).1 =
        df.rows.map (fun r => (feature_cols.filter (fun c => c ∈ df.cols)).map
          (fun c => EngRow.col r c)) ∧
      ∀ xr ∈ (prepare_features df).1,
        xr.length = (feature_cols.filter (fun c => c ∈ df.cols)).length) := by
  refine ⟨⟨List.filter_sublist _, fun c => by simp⟩, ?_, ?_⟩
  · intro h
    rw [prepare_features, if_pos h]
  · intro h
    have hX : (prepare_features df).1 =
        df.rows.map (fun r => (feature_cols.filter (fun c => c ∈ df.cols)).map
          (fun c => EngRow.col r c)) := by
      rw [prepare_features, if_neg h]
    refine ⟨hX, ?_⟩
    intro xr hxr
    rw [hX] at hxr
    obtain ⟨r, _, rfl⟩ := List.mem_map.mp hxr
    simp

/-- Witness for C6 on a frame whose schema drifted down to two candidate
columns. -/
theorem C6_feature_selection_soft_fail_witness :
    prepare_features driftedFrame = ([], []) :=
  (C6_feature_selection_soft_fail driftedFrame).2.1 (by decide)

lemma load_energy_data_fst (env : Env) (db : DB) :
    (load_energy_data env db).1 =
      if "energy_logs" ∈ db.tables then
        (engineerFrame env
          (sort_values (db.energy_logs.filter (fun r => r.energy_level.isSome)))).filter
          EngRow.noNull
      else [] := by
  unfold load_energy_data
  split <;> rfl

/-- Claim C10: both data producers drop a row as soon as any column of the
row is null — the `dropna` keep-predicate demands every column defined, a
null in the free-text notes column alone already evicts a row, every
survivabled row of the real loader has all columns (notes included) defined,
and the synthetic generator nulls the notes column of every row, so its
engineered frame is empty after the drop. -/
theorem C10_dropna_any_column (env : Env) (db : DB) (n : ℕ) (g : GState) :
    (∀ e : EngRow, e.noNull = true ↔
      (e.base.energy_level.isSome = true ∧ e.base.mood_score.isSome = true ∧
       e.base.stress_level.isSome = true ∧ e.base.hours_slept.isSome = true ∧
       e.base.notes.isSome = true ∧
       e.energy_level_lag1.isSome = true ∧ e.energy_level_lag7.isSome = true ∧
       e.mood_score_lag1.isSome = true ∧ e.mood_score_lag7.isSome = true ∧
       e.stress_level_lag1.isSome = true ∧ e.stress_level_lag7.isSome = true ∧
       e.hours_slept_lag1.isSome = true ∧ e.hours_slept_lag7.isSome = true ∧
       e.energy_level_rolling7.isSome = true ∧
       e.mood_score_rolling7.isSome = true ∧
       e.stress_level_rolling7.isSome = true)) ∧
    (∀ e ∈ (load_energy_data env db).1,
      e.noNull = true ∧ e.base.notes.isSome = true) ∧
    (∀ e : EngRow, e.base.notes = none → e.noNull = false) ∧
    (∀ e ∈ synthPreDrop env n, e.base.notes = none) ∧
    (generate_synthetic_data env n g).1 = [] := by
  have hiff : ∀ e : EngRow, e.noNull = true ↔
      (e.base.energy_level.isSome = true ∧ e.base.mood_score.isSome = true ∧
       e.base.stress_level.isSome = true ∧ e.base.hours_slept.isSome = true ∧
       e.base.notes.isSome = true ∧
       e.energy_level_lag1.isSome = true ∧ e.energy_level_lag7.isSome = true ∧
       e.mood_score_lag1.isSome = true ∧ e.mood_score_lag7.isSome = true ∧
       e.stress_level_lag1.isSome = true ∧ e.stress_level_lag7.isSome = true ∧
       e.hours_slept_lag1.isSome = true ∧ e.hours_slept_lag7.isSome = true ∧
       e.energy_level_rolling7.isSome = true ∧
       e.mood_score_rolling7.isSome = true ∧
       e.stress_level_rolling7.isSome = true) := by
    intro e
    simp only [EngRow.noNull, Bool.and_eq_true]
    tauto
  refine ⟨hiff, ?_, noNull_of_notes_none, synthPreDrop_notes env n,
    generate_empty env n g⟩
  intro e he
  rw [load_energy_data_fst] at he
  by_cases ht : "energy_logs" ∈ db.tables
  · rw [if_pos ht] at he
    have hkeep := (List.mem_filter.mp he).2
    exact ⟨hkeep, ((hiff e).mp hkeep).2.2.2.2.1⟩
  · rw [if_neg ht] at he
    simp at he

/-- Counterexample to claim C1: the run with no store does not proceed with
194 engineered records — the engineered synthetic frame is empty after the
drop (every synthetic row has a null notes cell). -/
theorem C1_counterexample :
    (generate_synthetic_data env0 200 (0, 0)).1.length = 0 ∧
    ¬ (generate_synthetic_data env0 200 (0, 0)).1.length = 194 := by
  constructor <;> simp [generate_empty]

/-- Claim C1 as amended: with no store present the run generates exactly 200
synthetic records before the drop; the drop then removes every record (the
notes column is null in all 200 rows), the 12 candidate feature columns are
still selected from the schema, and the pipeline exits with status 1 on the
empty feature matrix instead of proceeding with 194 records. -/
theorem C1_amended_pipeline (env : Env) (g : GState) :
    (synthPreDrop env 200).length = 200 ∧
    (generate_synthetic_data env 200 g).1.length = 0 ∧
    (feature_cols.filter (fun c => c ∈ synthColNames)).length = 12 ∧
    runProgram env depsAll none g =
      { exitCode := 1, verdict := none, queries := [], tabpfnWarnings := 0,
        evalTrace := [] } := by
  have hgen : generate_synthetic_data env 200 g = ([], (42, 4)) :=
    Prod.ext (generate_empty env 200 g) rfl
  refine ⟨synthPreDrop_length env 200, by rw [generate_empty]; rfl, by decide, ?_⟩
  have hres : resolveData env none g = ([], synthColNames, [], (42, 4)) := by
    unfold resolveData
    rw [hgen]
  have hxy : prepare_features ⟨synthColNames, ([] : List EngRow)⟩ = ([], []) := by
    rw [prepare_features, if_neg (by decide)]
    rfl
  have hrp : runProgram env depsAll none g = runPipeline env depsAll none g := rfl
  rw [hrp, runPipeline, hres]
  dsimp only
  rw [hxy]
  rfl

/-- Counterexample to claim C3: in a run against a store that does contain a
populated academic-events table, the pipeline never issues the events
query — the events table is not loaded at all, let alone joined. -/
theorem C3_counterexample :
    Query.selectAcademicEvents ∉
      (runProgram env0 depsAll (some dbWithEvents) (0, 0)).queries := by
  have hrp : runProgram env0 depsAll (some dbWithEvents) (0, 0) =
      runPipeline env0 depsAll (some dbWithEvents) (0, 0) := rfl
  rw [hrp, runPipeline_queries]
  exact resolveData_no_events env0 (some dbWithEvents) (0, 0)

/-- Claim C3 as amended: the auxiliary events loader exists in the script,
but no pipeline run ever invokes it — the events table is never queried, and
the outcome of a run is entirely independent of the events table's
contents. -/
theorem C3_amended_events_never_loaded (env : Env) (deps : Deps)
    (store : Option DB) (tables : List String) (logs : List LogRow)
    (ev1 ev2 : List EventRow) (g : GState) :
    Query.selectAcademicEvents ∉ (runProgram env deps store g).queries ∧
    runProgram env deps (some ⟨tables, logs, ev1⟩) g =
      runProgram env deps (some ⟨tables, logs, ev2⟩) g := by
  constructor
  · unfold runProgram
    split
    · simp
    · split
      · simp
      · rw [runPipeline_queries]
        exact resolveData_no_events env store g
  · rfl

/-- Witness for C3's amended claim at a concrete store holding events. -/
theorem C3_amended_events_never_loaded_witness :
    Query.selectAcademicEvents ∉
      (runProgram env0 depsAll (some db27) (0, 0)).queries ∧
    runProgram env0 depsAll (some ⟨db27.tables, db27.energy_logs, [⟨"u", 10, "exam", 3/2⟩]⟩) (0, 0) =
      runProgram env0 depsAll (some ⟨db27.tables, db27.energy_logs, []⟩) (0, 0) :=
  C3_amended_events_never_loaded env0 depsAll (some db27) db27.tables
    db27.energy_logs [⟨"u", 10, "exam", 3/2⟩] [] (0, 0)

/-- Witness for C10: a concrete row with every lag feature defined but a
null notes cell fails the keep-predicate, and a concrete synthetic run drops
all rows. -/
theorem C10_dropna_any_column_witness :
    engRow0.noNull = false ∧ (generate_synthetic_data env0 5 (0, 0)).1 = [] :=
  ⟨(C10_dropna_any_column env0 db27 5 (0, 0)).2.2.1 engRow0 rfl,
   (C10_dropna_any_column env0 db27 5 (0, 0)).2.2.2.2⟩

/-- Claim C5: with tabpfn missing (and the hard dependencies present) the
program prints exactly one startup warning, does not abort, and finishes
with the same exit code as when tabpfn is installed — so it never exits with
status 1 for this reason alone; whenever the run completes it has printed a
verdict and its evaluation used the mock classifier, never the real one. -/
theorem C5_missing_tabpfn_graceful (env : Env) (store : Option DB)
    (g : GState) :
    (runProgram env depsNoTabpfn store g).tabpfnWarnings = 1 ∧
    (runProgram env depsNoTabpfn store g).exitCode =
      (runProgram env depsAll store g).exitCode ∧
    ((runProgram env depsNoTabpfn store g).exitCode = 0 →
      (runProgram env depsNoTabpfn store g).verdict.isSome = true ∧
      EvalStep.useMock ∈ (runProgram env depsNoTabpfn store g).evalTrace ∧
      EvalStep.useReal ∉ (runProgram env depsNoTabpfn store g).evalTrace) := by
  have e1 : runProgram env depsNoTabpfn store g =
      runPipeline env depsNoTabpfn store g := rfl
  have e2 : runProgram env depsAll store g =
      runPipeline env depsAll store g := rfl
  rw [e1, e2]
  unfold runPipeline
  dsimp only [depsNoTabpfn, depsAll]
  by_cases h0 : (prepare_features
      ⟨(resolveData env store g).2.1, (resolveData env store g).1⟩).1.length = 0
  · rw [if_pos h0, if_pos h0]
    exact ⟨rfl, rfl, fun h => absurd h (by simp)⟩
  · rw [if_neg h0, if_neg h0]
    by_cases hm : (prepare_features
        ⟨(resolveData env store g).2.1, (resolveData env store g).1⟩).1.length
        < MIN_SAMPLES
    · rw [evaluate_insufficient env false _ _ _ hm,
        evaluate_insufficient env true _ _ _ hm]
      exact ⟨rfl, rfl, fun h => absurd h (by simp)⟩
    · obtain ⟨rF, hF1, _, _, hF2⟩ := evaluate_ok env false _ _
        (resolveData env store g).2.2.2 hm
      obtain ⟨rT, hT1, _, _, _⟩ := evaluate_ok env true _ _
        (resolveData env store g).2.2.2 hm
      rw [hF1, hT1]
      refine ⟨rfl, rfl, fun _ => ⟨rfl, ?_, ?_⟩⟩
      · rw [hF2]; simp
      · rw [hF2]; simp

/-- Witness for C5 at a concrete store with enough data for the run to
complete: the downgraded run warns once, uses the mock classifier, and exits
with the same status as the fully equipped run. -/
theorem C5_missing_tabpfn_graceful_witness :
    (runProgram env0 depsNoTabpfn (some db27) (0, 0)).tabpfnWarnings = 1 ∧
    (runProgram env0 depsNoTabpfn (some db27) (0, 0)).exitCode =
      (runProgram env0 depsAll (some db27) (0, 0)).exitCode ∧
    EvalStep.useMock ∈ (runProgram env0 depsNoTabpfn (some db27) (0, 0)).evalTrace :=
  ⟨(C5_missing_tabpfn_graceful env0 (some db27) (0, 0)).1,
   (C5_missing_tabpfn_graceful env0 (some db27) (0, 0)).2.1,
   (((C5_missing_tabpfn_graceful env0 (some db27) (0, 0)).2.2 (by decide)).2.1)⟩

lemma lagVal_map (s : List LogRow) (f : LogRow → Option ℚ) (k d : ℕ)
    (hd : d ≤ k) (p : LogRow) (hp : s[k - d]? = some p) :
    lagVal (s.map f) k d = f p := by
  unfold lagVal
  rw [if_pos hd, List.getElem?_map, hp]
  rfl

lemma lagVal_none (col : List (Option ℚ)) (k d : ℕ) (hd : ¬ d ≤ k) :
    lagVal col k d = none := by
  unfold lagVal
  rw [if_neg hd]

/-- Claim C2: within each entity's chronological sequence, the lag-1
features of the record at group position k hold exactly the raw values of
the record at position k-1, and the lag-7 features those of the record at
position k-7, whenever those positions exist; a record whose lag-7 position
does not exist (group position below 7, in particular each of the entity's
first 6 records) fails the keep-predicate and is absent from the final
engineered set, all of whose members have every lag feature defined. -/
theorem C2_lag_features (env : Env) (rows : List LogRow) (j : ℕ) (r : LogRow)
    (hj : rows[j]? = some r) :
    ∃ e : EngRow, (engineerFrame env rows)[j]? = some e ∧
      (1 ≤ prevCount rows j r.user_id →
        ∃ p : LogRow,
          (userSeq rows r.user_id)[prevCount rows j r.user_id - 1]? = some p ∧
          e.energy_level_lag1 = p.energy_level ∧
          e.mood_score_lag1 = p.mood_score ∧
          e.stress_level_lag1 = p.stress_level ∧
          e.hours_slept_lag1 = p.hours_slept) ∧
      (7 ≤ prevCount rows j r.user_id →
        ∃ p : LogRow,
          (userSeq rows r.user_id)[prevCount rows j r.user_id - 7]? = some p ∧
          e.energy_level_lag7 = p.energy_level ∧
          e.mood_score_lag7 = p.mood_score ∧
          e.stress_level_lag7 = p.stress_level ∧
          e.hours_slept_lag7 = p.hours_slept) ∧
      (prevCount rows j r.user_id < 7 → e.noNull = false) ∧
      (∀ e' ∈ (engineerFrame env rows).filter EngRow.noNull,
        e'.energy_level_lag1.isSome = true ∧ e'.energy_level_lag7.isSome = true ∧
        e'.mood_score_lag1.isSome = true ∧ e'.mood_score_lag7.isSome = true ∧
        e'.stress_level_lag1.isSome = true ∧ e'.stress_level_lag7.isSome = true ∧
        e'.hours_slept_lag1.isSome = true ∧
        e'.hours_slept_lag7.isSome = true) := by
  have hlen := prevCount_lt rows j r hj
  refine ⟨engineerRow env rows j r, engineerFrame_getElem? env rows j r hj,
    ?_, ?_, ?_, ?_⟩
  · intro h1
    have hlt : prevCount rows j r.user_id - 1 < (userSeq rows r.user_id).length := by
      omega
    have hp := List.getElem?_eq_getElem hlt
    exact ⟨_, hp, lagVal_map _ _ _ 1 h1 _ hp, lagVal_map _ _ _ 1 h1 _ hp,
      lagVal_map _ _ _ 1 h1 _ hp, lagVal_map _ _ _ 1 h1 _ hp⟩
  · intro h7
    have hlt : prevCount rows j r.user_id - 7 < (userSeq rows r.user_id).length := by
      omega
    have hp := List.getElem?_eq_getElem hlt
    exact ⟨_, hp, lagVal_map _ _ _ 7 h7 _ hp, lagVal_map _ _ _ 7 h7 _ hp,
      lagVal_map _ _ _ 7 h7 _ hp, lagVal_map _ _ _ 7 h7 _ hp⟩
  · intro h7
    have hnone : (engineerRow env rows j r).energy_level_lag7 = none :=
      lagVal_none _ _ 7 (by omega)
    simp [EngRow.noNull, hnone]
  · intro e' he'
    have hkeep := (List.mem_filter.mp he').2
    simp only [EngRow.noNull, Bool.and_eq_true] at hkeep
    tauto

/-- Witness for C2 on a concrete 8-record single-entity frame: the last
record's lag-7 feature is the raw energy value of the entity's first
record. -/
theorem C2_lag_features_witness :
    ∃ e : EngRow, (engineerFrame env0 rows8)[7]? = some e ∧
      ∃ p : LogRow, (userSeq rows8 row8last.user_id)[0]? = some p ∧
        e.energy_level_lag7 = p.energy_level := by
  obtain ⟨e, he, _, h7, _, _⟩ := C2_lag_features env0 rows8 7 row8last (by decide)
  obtain ⟨p, hp, hE, _, _, _⟩ := h7 (by decide)
  have h0 : prevCount rows8 7 row8last.user_id - 7 = 0 := by decide
  rw [h0] at hp
  exact ⟨e, he, p, hp, hE⟩

/-- Claim C8: for each numeric field with a rolling feature, the 7-window
trailing rolling mean at an entity's record of group position k (k < 7,
zero-based) equals the arithmetic mean of the entity's first k+1 raw values
of that field (the current record included — the inclusive minimum-window-1
behaviour), and the record's engineered features coincide with those
computed on the entity's own subframe alone, so the window never crosses
entity boundaries. -/
theorem C8_rolling_prefix_mean (env : Env) (rows : List LogRow) (j : ℕ)
    (r : LogRow) (hj : rows[j]? = some r)
    (hk : prevCount rows j r.user_id < 7) :
    ∃ e : EngRow, (engineerFrame env rows)[j]? = some e ∧
      (∀ vs : List ℚ,
        ((userSeq rows r.user_id).take (prevCount rows j r.user_id + 1)).map
            (fun x => x.energy_level) = vs.map some →
          e.energy_level_rolling7 =
            some (vs.sum / (prevCount rows j r.user_id + 1))) ∧
      (∀ vs : List ℚ,
        ((userSeq rows r.user_id).take (prevCount rows j r.user_id + 1)).map
            (fun x => x.mood_score) = vs.map some →
          e.mood_score_rolling7 =
            some (vs.sum / (prevCount rows j r.user_id + 1))) ∧
      (∀ vs : List ℚ,
        ((userSeq rows r.user_id).take (prevCount rows j r.user_id + 1)).map
            (fun x => x.stress_level) = vs.map some →
          e.stress_level_rolling7 =
            some (vs.sum / (prevCount rows j r.user_id + 1))) ∧
      e = engineerRow env (userSeq rows r.user_id)
            (prevCount rows j r.user_id) r := by
  have hlen := prevCount_lt rows j r hj
  have key : ∀ (f : LogRow → Option ℚ) (vs : List ℚ),
      ((userSeq rows r.user_id).take (prevCount rows j r.user_id + 1)).map f
        = vs.map some →
      rollMean ((userSeq rows r.user_id).map f) (prevCount rows j r.user_id)
        = some (vs.sum / (prevCount rows j r.user_id + 1)) := by
    intro f vs hvs
    have hvs' : ((userSeq rows r.user_id).map f).take
        (prevCount rows j r.user_id + 1) = vs.map some := by
      rw [← List.map_take, hvs]
    have hlenvs : vs.length = prevCount rows j r.user_id + 1 := by
      have h1 := congrArg List.length hvs
      simp only [List.length_map, List.length_take] at h1
      omega
    exact rollMean_take _ _ vs hk hvs' hlenvs
  refine ⟨engineerRow env rows j r, engineerFrame_getElem? env rows j r hj,
    fun vs hvs => key _ vs hvs, fun vs hvs => key _ vs hvs,
    fun vs hvs => key _ vs hvs, ?_⟩
  have hs := userSeq_idem rows r.user_id
  have hkk := prevCount_userSeq rows r.user_id (prevCount rows j r.user_id)
    (le_of_lt hlen)
  unfold engineerRow
  rw [hs, hkk]

/-- Witness for C8 on a concrete 3-record single-entity frame: the rolling
mean at the third record is the mean of the first three energy values. -/
theorem C8_rolling_prefix_mean_witness :
    ∃ e : EngRow, (engineerFrame env0 rows3)[2]? = some e ∧
      e.energy_level_rolling7 = some 4 := by
  obtain ⟨e, he, hen, _, _, _⟩ :=
    C8_rolling_prefix_mean env0 rows3 2 row3last (by decide) (by decide)
  refine ⟨e, he, ?_⟩
  have h := hen [3, 4, 5] (by decide)
  have hpc : prevCount rows3 2 row3last.user_id = 2 := by decide
  rw [hpc] at h
  rw [h]
  norm_num

end TabpfnPoc
